import Mathlib

set_option maxRecDepth 10000

/-!
Shallow embedding of `cloud/dimensiondata/dimensiondata_backup_client.py`:
the per-target backup-client reconciler (`handle_backup_client` and its
helpers).  The vendor SDK (`libcloud`) is modelled as an abstract provider
interface with an opaque state type; every provider call made by the module
is recorded in a trace.  `module.fail_json` is modelled as the `failJson`
halt, `module.exit_json` as the `exited` outcome, and an uncaught Python
exception (an attribute access on `None`, or an API exception raised inside
an unguarded call) as the `crash` halt.
-/

/-- Python `str.endswith`: true when `suffix` is a suffix of `s`.  Defined
by structural recursion over the character lists so it evaluates by kernel
reduction. -/
def String.endswith (s suffix : String) : Bool :=
  suffix.data.isSuffixOf s.data

namespace DimensionDataBackupClient

/-- The `type` object attached to a backup client by the SDK; the module
reads `client.type.type`. -/
structure BackupClientTypeObj where
  type : String
deriving Repr, DecidableEq

/-- A backup client as returned by the provider read
(`ex_get_backup_details_for_target(...).clients[i]`); the module reads the
attributes `id`, `type.type`, `storage_policy`, `schedule_policy` and
`download_url`. -/
structure BackupClientObj where
  id : String
  type : BackupClientTypeObj
  storage_policy : String
  schedule_policy : String
  download_url : String
deriving Repr, DecidableEq

/-- The backup details object for one target.  The module reads the
attributes `clients` and `sevice_plan` (sic: that is the attribute name the
source accesses on line 194). -/
structure BackupDetails where
  clients : List BackupClientObj
  sevice_plan : String
deriving Repr, DecidableEq

/-- The dict built by `_backup_client_obj_to_dict`. -/
structure BackupClientDict where
  id : String
  client_type : String
  storage_policy : String
  schedule_policy : String
  download_url : String
deriving Repr, DecidableEq

/-- A `DimensionDataAPIException` carrying the provider message `e.msg`. -/
structure APIException where
  msg : String
deriving Repr, DecidableEq

/-- One provider call, as recorded in the trace. -/
inductive Call where
  | read (server_id : String)
  | add (server_id client_type storage_policy schedule_policy trigger notify_email : String)
  | remove (server_id : String) (client_id : String)
  | modify (server_id : String) (service_plan : String)
deriving Repr, DecidableEq

/-- The abstract provider (the `DimensionDataBackupDriver` collaborator):
four operations over an opaque provider-side state `σ`, each returning the
next state and either a result or an `APIException`. -/
structure Provider (σ : Type) where
  ex_get_backup_details_for_target : σ → String → σ × Except APIException BackupDetails
  ex_add_client_to_target :
    σ → String → String → String → String → String → String →
      σ × Except APIException BackupClientObj
  ex_remove_client_from_target :
    σ → String → BackupClientObj → σ × Except APIException Unit
  update_target : σ → String → String → σ × Except APIException Unit

/-- The module parameters read by `handle_backup_client` and
`add_client_to_server`.  `storage_policy`, `schedule_policy` and
`client_type` may be unset (`None`); `notify_email` and `notify_trigger`
have defaults and are always set. -/
structure ModuleParams where
  state : String
  node_ids : List String
  client_type : Option String
  storage_policy : Option String
  schedule_policy : Option String
  notify_email : String
  notify_trigger : String
deriving Repr, DecidableEq

/-- How a run stops before `exit_json`: `failJson` is a `module.fail_json`
report, `crash` is an uncaught Python exception (no module-level report). -/
inductive Halt where
  | failJson (msg : String)
  | crash (msg : String)
deriving Repr, DecidableEq

/-- The terminal outcome of a run: `exited` is the `module.exit_json`
success report (changed flag, message, and the `backups` result map). -/
inductive RunOutcome where
  | exited (changed : Bool) (msg : String) (backups : List (String × BackupClientDict))
  | failed (msg : String)
  | crashed (msg : String)
deriving Repr, DecidableEq

/-- The reconciler's mutable state during a run: the provider-side state,
the `changed` flag, the `server_clients_return` map (most recent entry
first; lookups take the first hit, matching dict-overwrite semantics), and
the chronological trace of provider calls. -/
structure RunSt (σ : Type) where
  prov : σ
  changed : Bool
  server_clients_return : List (String × BackupClientDict)
  calls : List Call
deriving Repr, DecidableEq

/-- `get_backup_client(details, client_type)`: first client in
`details.clients` whose `type.type` equals `client_type`, else `None`.
(A `None` `client_type` matches no client, as in Python `str == None`.) -/
def get_backup_client (details : BackupDetails) (client_type : Option String) :
    Option BackupClientObj :=
  if details.clients.length > 0 then
    details.clients.find? (fun client => some client.type.type == client_type)
  else
    none

/-- `_backup_client_obj_to_dict(backup_client)`.  The Python function
dereferences its argument unconditionally; applied to `None` the first
attribute access raises `AttributeError` (an uncaught crash). -/
def _backup_client_obj_to_dict (backup_client : Option BackupClientObj) :
    Except Halt BackupClientDict :=
  match backup_client with
  | none => .error (.crash "AttributeError: NoneType object has no attribute id")
  | some bc =>
      .ok { id := bc.id
            client_type := bc.type.type
            storage_policy := bc.storage_policy
            schedule_policy := bc.schedule_policy
            download_url := bc.download_url }

/-- `get_backup_details_for_host(module, client, server_id)`: one provider
read; an `APIException` whose message ends with
`"has not been provisioned for backup"` becomes the
`"Server %s does not have backup enabled"` fatal report, any other
`APIException` becomes `"Problem finding backup info for host: %s"`. -/
def get_backup_details_for_host {σ : Type} (P : Provider σ) (server_id : String)
    (st : RunSt σ) : RunSt σ × Except Halt BackupDetails :=
  let r := P.ex_get_backup_details_for_target st.prov server_id
  let st1 : RunSt σ :=
    { st with prov := r.1, calls := st.calls ++ [Call.read server_id] }
  match r.2 with
  | .error e =>
      if e.msg.endswith "has not been provisioned for backup" then
        (st1, .error (.failJson ("Server " ++ server_id ++ " does not have backup enabled")))
      else
        (st1, .error (.failJson ("Problem finding backup info for host: " ++ e.msg)))
  | .ok d => (st1, .ok d)

/-- `remove_client_from_server`: one remove call; an `APIException` becomes
the `"Failed removing client from host: %s"` fatal report (the message does
not mention `server_id`). -/
def remove_client_from_server {σ : Type} (P : Provider σ) (server_id : String)
    (backup_client : BackupClientObj) (st : RunSt σ) : RunSt σ × Except Halt Unit :=
  let r := P.ex_remove_client_from_target st.prov server_id backup_client
  let st1 : RunSt σ :=
    { st with prov := r.1,
              calls := st.calls ++ [Call.remove server_id backup_client.id] }
  match r.2 with
  | .error e => (st1, .error (.failJson ("Failed removing client from host: " ++ e.msg)))
  | .ok _ => (st1, .ok ())

/-- `add_client_to_server`: `getkeyordie` on `storage_policy`,
`schedule_policy` and `client_type` in that order (each `None` gives the
`"Need key %s for adding a client"` fatal report before any call), then one
add call; an `APIException` becomes the
`"Failed adding client to host: %s"` fatal report. -/
def add_client_to_server {σ : Type} (P : Provider σ) (params : ModuleParams)
    (server_id : String) (st : RunSt σ) : RunSt σ × Except Halt BackupClientObj :=
  match params.storage_policy with
  | none => (st, .error (.failJson "Need key storage_policy for adding a client"))
  | some storage_policy =>
  match params.schedule_policy with
  | none => (st, .error (.failJson "Need key schedule_policy for adding a client"))
  | some schedule_policy =>
  match params.client_type with
  | none => (st, .error (.failJson "Need key client_type for adding a client"))
  | some client_type =>
    let trigger := params.notify_trigger
    let notify_email := params.notify_email
    let r := P.ex_add_client_to_target st.prov server_id client_type
      storage_policy schedule_policy trigger notify_email
    let st1 : RunSt σ :=
      { st with prov := r.1,
                calls := st.calls ++
                  [Call.add server_id client_type storage_policy
                    schedule_policy trigger notify_email] }
    match r.2 with
    | .error e => (st1, .error (.failJson ("Failed adding client to host: " ++ e.msg)))
    | .ok bc => (st1, .ok bc)

/-- `modify_backup_for_server`: one `update_target` call with
`extra={servicePlan: service_plan}`.  The source wraps this call in no
`try`/`except`, so an `APIException` here is an uncaught crash, not a
`fail_json` report. -/
def modify_backup_for_server {σ : Type} (P : Provider σ) (server_id : String)
    (service_plan : String) (st : RunSt σ) : RunSt σ × Except Halt Unit :=
  let r := P.update_target st.prov server_id service_plan
  let st1 : RunSt σ :=
    { st with prov := r.1, calls := st.calls ++ [Call.modify server_id service_plan] }
  match r.2 with
  | .error e => (st1, .error (.crash ("DimensionDataAPIException: " ++ e.msg)))
  | .ok _ => (st1, .ok ())

/-- The body of `handle_backup_client`'s loop for one `server_id`: the
four-way branch on (`state`, client found). -/
def handle_one {σ : Type} (P : Provider σ) (params : ModuleParams)
    (server_id : String) (st : RunSt σ) : RunSt σ × Except Halt Unit :=
  let rd := get_backup_details_for_host P server_id st
  match rd.2 with
  | .error h => (rd.1, .error h)
  | .ok backup_details =>
    let backup_client := get_backup_client backup_details params.client_type
    if params.state == "absent" then
      match backup_client with
      | none => (rd.1, .ok ())
      | some bc =>
          remove_client_from_server P server_id bc { rd.1 with changed := true }
    else if params.state == "present" then
      match backup_client with
      | none =>
          let ra := add_client_to_server P params server_id { rd.1 with changed := true }
          match ra.2 with
          | .error h => (ra.1, .error h)
          | .ok _ =>
            let rd2 := get_backup_details_for_host P server_id ra.1
            match rd2.2 with
            | .error h => (rd2.1, .error h)
            | .ok details2 =>
              match _backup_client_obj_to_dict (get_backup_client details2 params.client_type) with
              | .error h => (rd2.1, .error h)
              | .ok d =>
                  ({ rd2.1 with server_clients_return :=
                       (server_id, d) :: rd2.1.server_clients_return }, .ok ())
      | some bc =>
          let existing_service_plan := backup_details.sevice_plan
          let rm := modify_backup_for_server P server_id existing_service_plan rd.1
          match rm.2 with
          | .error h => (rm.1, .error h)
          | .ok _ =>
            match _backup_client_obj_to_dict (some bc) with
            | .error h => (rm.1, .error h)
            | .ok d =>
                ({ rm.1 with server_clients_return :=
                     (server_id, d) :: rm.1.server_clients_return }, .ok ())
    else
      (rd.1, .error (.failJson "Unhandled state"))

/-- The `for server_id in module.params[node_ids]` loop: sequential, in
input order, short-circuiting on the first halt. -/
def handle_loop {σ : Type} (P : Provider σ) (params : ModuleParams) :
    List String → RunSt σ → RunSt σ × Except Halt Unit
  | [], st => (st, .ok ())
  | server_id :: ids, st =>
      let r := handle_one P params server_id st
      match r.2 with
      | .error h => (r.1, .error h)
      | .ok _ => handle_loop P params ids r.1

/-- The initial reconciler state. -/
def initSt {σ : Type} (s0 : σ) : RunSt σ :=
  { prov := s0, changed := false, server_clients_return := [], calls := [] }

/-- `handle_backup_client(module, client)`: run the loop over
`params.node_ids` from a fresh state; on normal completion emit
`exit_json(changed=..., msg=Success, backups=...)`, otherwise surface the
halt.  Also returns the trace of provider calls made. -/
def handle_backup_client {σ : Type} (P : Provider σ) (params : ModuleParams)
    (s0 : σ) : RunOutcome × List Call :=
  let r := handle_loop P params params.node_ids (initSt s0)
  match r.2 with
  | .ok _ => (RunOutcome.exited r.1.changed "Success" r.1.server_clients_return, r.1.calls)
  | .error (.failJson m) => (RunOutcome.failed m, r.1.calls)
  | .error (.crash m) => (RunOutcome.crashed m, r.1.calls)

/-! ## Concrete fixtures used by witnesses and counterexamples -/

/-- A concrete backup client of type `MySQL`. -/
def mysqlClient : BackupClientObj :=
  { id := "client-1"
    type := { type := "MySQL" }
    storage_policy := "30 Day Storage Policy"
    schedule_policy := "12AM - 6AM"
    download_url := "http://example.com/dl" }

/-- The serialization of `mysqlClient`. -/
def mysqlDict : BackupClientDict :=
  { id := "client-1"
    client_type := "MySQL"
    storage_policy := "30 Day Storage Policy"
    schedule_policy := "12AM - 6AM"
    download_url := "http://example.com/dl" }

/-- Read-back details that already contain `mysqlClient`. -/
def detailsFound : BackupDetails :=
  { clients := [mysqlClient], sevice_plan := "Essentials" }

/-- Read-back details with no clients at all. -/
def detailsEmpty : BackupDetails :=
  { clients := [], sevice_plan := "Essentials" }

/-- Parameters: `state=present`, one target `A`, all keys set. -/
def paramsPresent : ModuleParams :=
  { state := "present"
    node_ids := ["A"]
    client_type := some "MySQL"
    storage_policy := some "30 Day Storage Policy"
    schedule_policy := some "12AM - 6AM"
    notify_email := "nobody@example.com"
    notify_trigger := "ON_FAILURE" }

/-- Parameters: `state=present` with `storage_policy` unset. -/
def paramsNoStorage : ModuleParams :=
  { paramsPresent with storage_policy := none }

/-- Parameters: `state=absent`, one target `A`. -/
def paramsAbsent : ModuleParams :=
  { paramsPresent with state := "absent" }

/-- Parameters: `state=absent`, two targets `A` and `B`. -/
def paramsAbsentTwo : ModuleParams :=
  { paramsPresent with state := "absent", node_ids := ["A", "B"] }

/-- Provider on which every read finds `detailsFound` and every write
succeeds. -/
def provFound : Provider Unit :=
  { ex_get_backup_details_for_target := fun s _ => (s, .ok detailsFound)
    ex_add_client_to_target := fun s _ _ _ _ _ _ => (s, .ok mysqlClient)
    ex_remove_client_from_target := fun s _ _ => (s, .ok ())
    update_target := fun s _ _ => (s, .ok ()) }

/-- Provider on which every read finds no clients. -/
def provEmpty : Provider Unit :=
  { ex_get_backup_details_for_target := fun s _ => (s, .ok detailsEmpty)
    ex_add_client_to_target := fun s _ _ _ _ _ _ => (s, .ok mysqlClient)
    ex_remove_client_from_target := fun s _ _ => (s, .ok ())
    update_target := fun s _ _ => (s, .ok ()) }

/-- Provider whose state counts reads: the first read finds no clients, any
later read finds `detailsFound` (models a successful add becoming visible
on the re-read). -/
def provAddVisible : Provider Nat :=
  { ex_get_backup_details_for_target :=
      fun n _ => (n + 1, .ok (if n = 0 then detailsEmpty else detailsFound))
    ex_add_client_to_target := fun n _ _ _ _ _ _ => (n, .ok mysqlClient)
    ex_remove_client_from_target := fun n _ _ => (n, .ok ())
    update_target := fun n _ _ => (n, .ok ()) }

/-- Provider on which reads find `detailsFound` but `update_target`
raises `boom`. -/
def provModifyFail : Provider Unit :=
  { ex_get_backup_details_for_target := fun s _ => (s, .ok detailsFound)
    ex_add_client_to_target := fun s _ _ _ _ _ _ => (s, .ok mysqlClient)
    ex_remove_client_from_target := fun s _ _ => (s, .ok ())
    update_target := fun s _ _ => (s, .error { msg := "boom" }) }

/-- Provider on which reads find `detailsFound` but the remove call raises
`boom`. -/
def provRemoveFail : Provider Unit :=
  { ex_get_backup_details_for_target := fun s _ => (s, .ok detailsFound)
    ex_add_client_to_target := fun s _ _ _ _ _ _ => (s, .ok mysqlClient)
    ex_remove_client_from_target := fun s _ _ => (s, .error { msg := "boom" })
    update_target := fun s _ _ => (s, .ok ()) }

/-- Provider on which reads find no clients and the add call raises
`boom`. -/
def provAddFail : Provider Unit :=
  { ex_get_backup_details_for_target := fun s _ => (s, .ok detailsEmpty)
    ex_add_client_to_target := fun s _ _ _ _ _ _ => (s, .error { msg := "boom" })
    ex_remove_client_from_target := fun s _ _ => (s, .ok ())
    update_target := fun s _ _ => (s, .ok ()) }

/-- Provider on which every read raises the not-provisioned message. -/
def provNotProvisioned : Provider Unit :=
  { ex_get_backup_details_for_target :=
      fun s _ => (s, .error { msg := "Server A has not been provisioned for backup" })
    ex_add_client_to_target := fun s _ _ _ _ _ _ => (s, .ok mysqlClient)
    ex_remove_client_from_target := fun s _ _ => (s, .ok ())
    update_target := fun s _ _ => (s, .ok ()) }

/-- Provider on which every read raises a generic `boom`. -/
def provReadFail : Provider Unit :=
  { ex_get_backup_details_for_target := fun s _ => (s, .error { msg := "boom" })
    ex_add_client_to_target := fun s _ _ _ _ _ _ => (s, .ok mysqlClient)
    ex_remove_client_from_target := fun s _ _ => (s, .ok ())
    update_target := fun s _ _ => (s, .ok ()) }

/-! ## Helper lemmas -/

/-- Evaluation of `handle_one` on the `present` and client-found branch:
one read, one modify carrying `details.sevice_plan`, the result entry is
the serialization of the client captured before the modify call, and the
`changed` flag is left as it was. -/
theorem handle_one_present_found {σ : Type} (P : Provider σ) (params : ModuleParams)
    (server_id : String) (st : RunSt σ) (s2 s3 : σ) (details : BackupDetails)
    (bc : BackupClientObj)
    (hstate : params.state = "present")
    (hread : P.ex_get_backup_details_for_target st.prov server_id = (s2, .ok details))
    (hfind : get_backup_client details params.client_type = some bc)
    (hupd : P.update_target s2 server_id details.sevice_plan = (s3, .ok ())) :
    handle_one P params server_id st =
      ({ st with
           prov := s3
           server_clients_return :=
             (server_id,
               { id := bc.id
                 client_type := bc.type.type
                 storage_policy := bc.storage_policy
                 schedule_policy := bc.schedule_policy
                 download_url := bc.download_url }) :: st.server_clients_return
           calls := st.calls ++
             [Call.read server_id, Call.modify server_id details.sevice_plan] },
       Except.ok ()) := by
  simp [handle_one, get_backup_details_for_host, hread, hstate, hfind,
    modify_backup_for_server, hupd, _backup_client_obj_to_dict]

/-! ## Claims -/

/-- Claim C1, counterexample: a run with state `present` whose single
target already has a client of the desired type completes successfully but
reports `changed = false`, not `changed = true` as the claim states (the
`present`-and-found branch of `handle_backup_client` never sets the
`changed` flag). -/
theorem C1_counterexample :
    (handle_backup_client provFound paramsPresent ()).1 =
      RunOutcome.exited false "Success" [("A", mysqlDict)] := by
  rfl

/-- Claim C1 (amended): for every run with desired state `present` in which
every target's read-back already contains a client of the desired client
type (and every modify call succeeds), processing leaves the global
`changed` flag unchanged, so a successful run consisting only of such
targets reports `changed = false`. -/
theorem C1_present_found_changed_stays_false {σ : Type} (P : Provider σ)
    (params : ModuleParams)
    (hstate : params.state = "present")
    (hP : ∀ (s : σ) (sid : String),
      ∃ s2 details bc s3,
        P.ex_get_backup_details_for_target s sid = (s2, Except.ok details) ∧
        get_backup_client details params.client_type = some bc ∧
        P.update_target s2 sid details.sevice_plan = (s3, Except.ok ())) :
    (∀ (ids : List String) (st : RunSt σ),
      (handle_loop P params ids st).1.changed = st.changed ∧
      (handle_loop P params ids st).2 = Except.ok ()) ∧
    (∀ s0 : σ, (handle_backup_client P params s0).1 =
      RunOutcome.exited false "Success"
        (handle_loop P params params.node_ids (initSt s0)).1.server_clients_return) := by
  have main : ∀ (ids : List String) (st : RunSt σ),
      (handle_loop P params ids st).1.changed = st.changed ∧
      (handle_loop P params ids st).2 = Except.ok () := by
    intro ids
    induction ids with
    | nil => intro st; exact ⟨rfl, rfl⟩
    | cons sid ids ih =>
        intro st
        obtain ⟨s2, details, bc, s3, h1, h2, h3⟩ := hP st.prov sid
        have hone := handle_one_present_found P params sid st s2 s3 details bc
          hstate h1 h2 h3
        simp only [handle_loop, hone]
        exact ih _
  refine ⟨main, fun s0 => ?_⟩
  obtain ⟨h1, h2⟩ := main params.node_ids (initSt s0)
  simp only [handle_backup_client]
  rcases hr : (handle_loop P params params.node_ids (initSt s0)).2 with h | u
  · rw [hr] at h2; cases h2
  · simp [hr]
    exact h1

/-- Claim C1, witness: the amended statement applied to the concrete
single-target `present`-and-found run. -/
theorem C1_witness :
    (handle_loop provFound paramsPresent ["A"] (initSt ())).1.changed =
      (initSt ()).changed ∧
    (handle_loop provFound paramsPresent ["A"] (initSt ())).2 = Except.ok () :=
  (C1_present_found_changed_stays_false provFound paramsPresent rfl
    (fun _ _ => ⟨(), detailsFound, mysqlClient, (), rfl, rfl, rfl⟩)).1
    ["A"] (initSt ())

/-- Claim C3: on a target with state `present` whose read-back contains a
client of the desired type, exactly one modify call is issued, carrying the
service plan read from the backup details (`sevice_plan` attribute), and
the result map entry for that target is the serialization of the matched
client as captured before the modify call. -/
theorem C3_present_found_modifies_with_existing_plan {σ : Type} (P : Provider σ)
    (params : ModuleParams) (server_id : String) (st : RunSt σ) (s2 s3 : σ)
    (details : BackupDetails) (bc : BackupClientObj)
    (hstate : params.state = "present")
    (hread : P.ex_get_backup_details_for_target st.prov server_id = (s2, .ok details))
    (hfind : get_backup_client details params.client_type = some bc)
    (hupd : P.update_target s2 server_id details.sevice_plan = (s3, .ok ())) :
    handle_one P params server_id st =
      ({ st with
           prov := s3
           server_clients_return :=
             (server_id,
               { id := bc.id
                 client_type := bc.type.type
                 storage_policy := bc.storage_policy
                 schedule_policy := bc.schedule_policy
                 download_url := bc.download_url }) :: st.server_clients_return
           calls := st.calls ++
             [Call.read server_id, Call.modify server_id details.sevice_plan] },
       Except.ok ()) :=
  handle_one_present_found P params server_id st s2 s3 details bc
    hstate hread hfind hupd

/-- Claim C3, witness: the statement applied to the concrete
single-target `present`-and-found run. -/
theorem C3_witness :
    handle_one provFound paramsPresent "A" (initSt ()) =
      ({ initSt () with
           prov := ()
           server_clients_return :=
             ("A",
               { id := mysqlClient.id
                 client_type := mysqlClient.type.type
                 storage_policy := mysqlClient.storage_policy
                 schedule_policy := mysqlClient.schedule_policy
                 download_url := mysqlClient.download_url }) ::
               (initSt ()).server_clients_return
           calls := (initSt ()).calls ++
             [Call.read "A", Call.modify "A" detailsFound.sevice_plan] },
       Except.ok ()) :=
  C3_present_found_modifies_with_existing_plan provFound paramsPresent "A"
    (initSt ()) () () detailsFound mysqlClient rfl rfl rfl rfl

/-- Parameters: `state=present`, `storage_policy` unset, two targets. -/
def paramsNoStorageTwo : ModuleParams :=
  { paramsNoStorage with node_ids := ["X", "Y"] }

/-- Parameters: `state=absent`, one target `B`. -/
def paramsAbsentB : ModuleParams :=
  { paramsAbsent with node_ids := ["B"] }

/-- Claim C2, counterexample: with state `present` and `storage_policy`
unset, the run fails with the configuration error, but a provider read
call for the first target is recorded before the failure — not zero calls
as the claim states. -/
theorem C2_counterexample :
    handle_backup_client provEmpty paramsNoStorage () =
      (RunOutcome.failed "Need key storage_policy for adding a client",
       [Call.read "A"]) := by
  rfl

/-- Claim C2 (amended): with state `present` and `storage_policy` unset,
the run fails with the configuration error only when it reaches the first
target that has no client of the desired type — after that target's read
call has been made, so at least one provider call is recorded.  The check
lives in `add_client_to_server`, not in fail-fast pre-validation. -/
theorem C2_validation_after_first_read {σ : Type} (P : Provider σ)
    (params : ModuleParams) (s0 s2 : σ) (sid : String) (rest : List String)
    (details : BackupDetails)
    (hstate : params.state = "present")
    (hsp : params.storage_policy = none)
    (hids : params.node_ids = sid :: rest)
    (hread : P.ex_get_backup_details_for_target s0 sid = (s2, Except.ok details))
    (hfind : get_backup_client details params.client_type = none) :
    handle_backup_client P params s0 =
      (RunOutcome.failed "Need key storage_policy for adding a client",
       [Call.read sid]) := by
  simp [handle_backup_client, hids, handle_loop, handle_one,
    get_backup_details_for_host, initSt, hread, hstate, hfind,
    add_client_to_server, hsp]

/-- Claim C2, witness: the amended statement applied to a concrete
two-target run with `storage_policy` unset (only the first target's read
happens). -/
theorem C2_witness :
    handle_backup_client provEmpty paramsNoStorageTwo () =
      (RunOutcome.failed "Need key storage_policy for adding a client",
       [Call.read "X"]) :=
  C2_validation_after_first_read provEmpty paramsNoStorageTwo () () "X" ["Y"]
    detailsEmpty rfl rfl rfl rfl rfl

/-- Claim C4, counterexample: a failing modify call is not caught at all —
the run ends in an uncaught exception, not a fatal module report — and a
failing remove call produces the same fatal message for target `A` as for
target `B`, so the message does not name the failing target. -/
theorem C4_counterexample :
    (handle_backup_client provModifyFail paramsPresent ()).1 =
      RunOutcome.crashed "DimensionDataAPIException: boom" ∧
    (handle_backup_client provRemoveFail paramsAbsent ()).1 =
      RunOutcome.failed "Failed removing client from host: boom" ∧
    (handle_backup_client provRemoveFail paramsAbsentB ()).1 =
      RunOutcome.failed "Failed removing client from host: boom" := by
  exact ⟨rfl, rfl, rfl⟩

/-- Claim C4 (amended): a failing add or remove call aborts the run with a
fatal report that carries the provider's underlying message but does not
mention the target id, while a failing modify call is unguarded and
crashes the run with an uncaught exception instead of a fatal report. -/
theorem C4_write_failure_behavior {σ : Type} (P : Provider σ) :
    (∀ (st : RunSt σ) (sid : String) (bc : BackupClientObj) (s2 : σ)
        (e : APIException),
      P.ex_remove_client_from_target st.prov sid bc = (s2, Except.error e) →
      remove_client_from_server P sid bc st =
        ({ st with prov := s2, calls := st.calls ++ [Call.remove sid bc.id] },
         Except.error (Halt.failJson ("Failed removing client from host: " ++ e.msg)))) ∧
    (∀ (st : RunSt σ) (params : ModuleParams) (sid sp schp ct : String) (s2 : σ)
        (e : APIException),
      params.storage_policy = some sp →
      params.schedule_policy = some schp →
      params.client_type = some ct →
      P.ex_add_client_to_target st.prov sid ct sp schp params.notify_trigger
          params.notify_email = (s2, Except.error e) →
      add_client_to_server P params sid st =
        ({ st with
             prov := s2
             calls := st.calls ++
               [Call.add sid ct sp schp params.notify_trigger params.notify_email] },
         Except.error (Halt.failJson ("Failed adding client to host: " ++ e.msg)))) ∧
    (∀ (st : RunSt σ) (sid plan : String) (s2 : σ) (e : APIException),
      P.update_target st.prov sid plan = (s2, Except.error e) →
      modify_backup_for_server P sid plan st =
        ({ st with prov := s2, calls := st.calls ++ [Call.modify sid plan] },
         Except.error (Halt.crash ("DimensionDataAPIException: " ++ e.msg)))) := by
  refine ⟨?_, ?_, ?_⟩
  · intro st sid bc s2 e h
    simp [remove_client_from_server, h]
  · intro st params sid sp schp ct s2 e hsp hschp hct h
    simp [add_client_to_server, hsp, hschp, hct, h]
  · intro st sid plan s2 e h
    simp [modify_backup_for_server, h]

/-- Claim C4, witness: the amended statement applied to concrete failing
remove and modify calls. -/
theorem C4_witness :
    remove_client_from_server provRemoveFail "A" mysqlClient (initSt ()) =
      ({ initSt () with
           prov := ()
           calls := (initSt ()).calls ++ [Call.remove "A" mysqlClient.id] },
       Except.error (Halt.failJson ("Failed removing client from host: " ++ "boom"))) ∧
    modify_backup_for_server provModifyFail "A" "Essentials" (initSt ()) =
      ({ initSt () with
           prov := ()
           calls := (initSt ()).calls ++ [Call.modify "A" "Essentials"] },
       Except.error (Halt.crash ("DimensionDataAPIException: " ++ "boom"))) :=
  ⟨(C4_write_failure_behavior provRemoveFail).1 (initSt ()) "A" mysqlClient ()
      { msg := "boom" } rfl,
   (C4_write_failure_behavior provModifyFail).2.2 (initSt ()) "A" "Essentials" ()
      { msg := "boom" } rfl⟩

/-- Claim C5: on a target with state `present` and no existing client of
the desired type (all required keys set), exactly one add call occurs,
followed by exactly one re-read; the result map receives the target keyed
to the full serialization of the client found by the re-read, and the
`changed` flag becomes true. -/
theorem C5_present_missing_adds_and_rereads {σ : Type} (P : Provider σ)
    (params : ModuleParams) (sid : String) (st : RunSt σ) (s2 s3 s4 : σ)
    (details1 details2 : BackupDetails) (bcAdd bc2 : BackupClientObj)
    (sp schp ct : String)
    (hstate : params.state = "present")
    (hsp : params.storage_policy = some sp)
    (hschp : params.schedule_policy = some schp)
    (hct : params.client_type = some ct)
    (hread1 : P.ex_get_backup_details_for_target st.prov sid = (s2, Except.ok details1))
    (hfind1 : get_backup_client details1 params.client_type = none)
    (hadd : P.ex_add_client_to_target s2 sid ct sp schp params.notify_trigger
      params.notify_email = (s3, Except.ok bcAdd))
    (hread2 : P.ex_get_backup_details_for_target s3 sid = (s4, Except.ok details2))
    (hfind2 : get_backup_client details2 params.client_type = some bc2) :
    handle_one P params sid st =
      ({ st with
           prov := s4
           changed := true
           server_clients_return :=
             (sid,
               { id := bc2.id
                 client_type := bc2.type.type
                 storage_policy := bc2.storage_policy
                 schedule_policy := bc2.schedule_policy
                 download_url := bc2.download_url }) :: st.server_clients_return
           calls := st.calls ++
             [Call.read sid,
              Call.add sid ct sp schp params.notify_trigger params.notify_email,
              Call.read sid] },
       Except.ok ()) := by
  rw [hct] at hfind1 hfind2
  simp [handle_one, get_backup_details_for_host, hread1, hstate, hfind1,
    add_client_to_server, hsp, hschp, hct, hadd, hread2, hfind2,
    _backup_client_obj_to_dict]

/-- Claim C5, witness: the statement applied to the concrete provider on
which the first read finds no client and the re-read finds the newly added
one. -/
theorem C5_witness :
    handle_one provAddVisible paramsPresent "A" (initSt 0) =
      ({ initSt 0 with
           prov := 2
           changed := true
           server_clients_return :=
             ("A",
               { id := mysqlClient.id
                 client_type := mysqlClient.type.type
                 storage_policy := mysqlClient.storage_policy
                 schedule_policy := mysqlClient.schedule_policy
                 download_url := mysqlClient.download_url }) ::
               (initSt 0).server_clients_return
           calls := (initSt 0).calls ++
             [Call.read "A",
              Call.add "A" "MySQL" "30 Day Storage Policy" "12AM - 6AM"
                paramsPresent.notify_trigger paramsPresent.notify_email,
              Call.read "A"] },
       Except.ok ()) :=
  C5_present_missing_adds_and_rereads provAddVisible paramsPresent "A"
    (initSt 0) 1 1 2 detailsEmpty detailsFound mysqlClient mysqlClient
    "30 Day Storage Policy" "12AM - 6AM" "MySQL"
    rfl rfl rfl rfl rfl rfl rfl rfl rfl

/-- Claim C6: on a target with state `absent`, if no client of the desired
type exists then only the read happens (no write call, no result entry,
`changed` untouched); if one exists then exactly one remove call occurs,
`changed` becomes true, and the result map is still untouched, so absent
targets never appear in it. -/
theorem C6_absent_branch {σ : Type} (P : Provider σ) (params : ModuleParams)
    (sid : String) (st : RunSt σ) (s2 : σ) (details : BackupDetails)
    (hstate : params.state = "absent")
    (hread : P.ex_get_backup_details_for_target st.prov sid = (s2, Except.ok details)) :
    (get_backup_client details params.client_type = none →
      handle_one P params sid st =
        ({ st with prov := s2, calls := st.calls ++ [Call.read sid] },
         Except.ok ())) ∧
    (∀ (bc : BackupClientObj) (s3 : σ),
      get_backup_client details params.client_type = some bc →
      P.ex_remove_client_from_target s2 sid bc = (s3, Except.ok ()) →
      handle_one P params sid st =
        ({ st with
             prov := s3
             changed := true
             calls := st.calls ++ [Call.read sid, Call.remove sid bc.id] },
         Except.ok ())) := by
  constructor
  · intro hfind
    simp [handle_one, get_backup_details_for_host, hread, hstate, hfind]
  · intro bc s3 hfind hrm
    simp [handle_one, get_backup_details_for_host, hread, hstate, hfind,
      remove_client_from_server, hrm]

/-- Claim C6, witness: the statement applied to concrete `absent` runs, one
with a matching client (one remove, changed) and one without (read only). -/
theorem C6_witness :
    handle_one provFound paramsAbsent "A" (initSt ()) =
      ({ initSt () with
           prov := ()
           changed := true
           calls := (initSt ()).calls ++
             [Call.read "A", Call.remove "A" mysqlClient.id] },
       Except.ok ()) ∧
    handle_one provEmpty paramsAbsent "A" (initSt ()) =
      ({ initSt () with
           prov := ()
           calls := (initSt ()).calls ++ [Call.read "A"] },
       Except.ok ()) :=
  ⟨(C6_absent_branch provFound paramsAbsent "A" (initSt ()) () detailsFound
      rfl rfl).2 mysqlClient () rfl rfl,
   (C6_absent_branch provEmpty paramsAbsent "A" (initSt ()) () detailsEmpty
      rfl rfl).1 rfl⟩

/-- Claim C7: a failing backup-details read halts the loop at that target,
so the remaining targets get no calls.  When the provider message ends
with the not-provisioned text, the fatal message names the target
(`Server <id> does not have backup enabled`); any other read failure is
fatal too, carrying the provider's underlying message. -/
theorem C7_read_failure_aborts {σ : Type} (P : Provider σ) (params : ModuleParams) :
    ∀ (st : RunSt σ) (sid : String) (rest : List String) (s2 : σ) (e : APIException),
      P.ex_get_backup_details_for_target st.prov sid = (s2, Except.error e) →
      ((e.msg.endswith "has not been provisioned for backup" = true →
        handle_loop P params (sid :: rest) st =
          ({ st with prov := s2, calls := st.calls ++ [Call.read sid] },
           Except.error (Halt.failJson
             ("Server " ++ sid ++ " does not have backup enabled")))) ∧
       (e.msg.endswith "has not been provisioned for backup" = false →
        handle_loop P params (sid :: rest) st =
          ({ st with prov := s2, calls := st.calls ++ [Call.read sid] },
           Except.error (Halt.failJson
             ("Problem finding backup info for host: " ++ e.msg))))) := by
  intro st sid rest s2 e hread
  constructor
  · intro hend
    simp [handle_loop, handle_one, get_backup_details_for_host, hread, hend]
  · intro hend
    simp [handle_loop, handle_one, get_backup_details_for_host, hread, hend]

/-- Claim C7, witness: the statement applied to a concrete two-target run
whose first read fails; only one read call happens, and the
not-provisioned case names target `A`. -/
theorem C7_witness :
    handle_loop provNotProvisioned paramsPresent ["A", "B"] (initSt ()) =
      ({ initSt () with
           prov := ()
           calls := (initSt ()).calls ++ [Call.read "A"] },
       Except.error (Halt.failJson
         ("Server " ++ "A" ++ " does not have backup enabled"))) ∧
    handle_loop provReadFail paramsPresent ["A", "B"] (initSt ()) =
      ({ initSt () with
           prov := ()
           calls := (initSt ()).calls ++ [Call.read "A"] },
       Except.error (Halt.failJson
         ("Problem finding backup info for host: " ++ "boom"))) :=
  ⟨(C7_read_failure_aborts provNotProvisioned paramsPresent (initSt ()) "A" ["B"] ()
      { msg := "Server A has not been provisioned for backup" } rfl).1 (by decide),
   (C7_read_failure_aborts provReadFail paramsPresent (initSt ()) "A" ["B"] ()
      { msg := "boom" } rfl).2 (by decide)⟩

/-- Claim C8: the success report is emitted only when the whole target list
was processed without a halt: a halt on any prefix of the list makes the
whole loop return that halt untouched (later targets contribute nothing),
and an `exited` outcome can only arise from a loop that completed with
`Except.ok`, whose accumulated state is exactly what is reported. -/
theorem C8_report_only_on_full_success {σ : Type} (P : Provider σ)
    (params : ModuleParams) :
    (∀ (ids1 ids2 : List String) (st st1 : RunSt σ) (h : Halt),
      handle_loop P params ids1 st = (st1, Except.error h) →
      handle_loop P params (ids1 ++ ids2) st = (st1, Except.error h)) ∧
    (∀ (s0 : σ) (c : Bool) (m : String)
        (b : List (String × BackupClientDict)) (tr : List Call),
      handle_backup_client P params s0 = (RunOutcome.exited c m b, tr) →
      m = "Success" ∧
      ∃ st1 : RunSt σ,
        handle_loop P params params.node_ids (initSt s0) = (st1, Except.ok ()) ∧
        st1.changed = c ∧ st1.server_clients_return = b ∧ st1.calls = tr) := by
  constructor
  · intro ids1
    induction ids1 with
    | nil =>
        intro ids2 st st1 h hrun
        simp [handle_loop] at hrun
    | cons sid ids ih =>
        intro ids2 st st1 h hrun
        simp only [List.cons_append, handle_loop] at hrun ⊢
        cases hx : (handle_one P params sid st).2 with
        | error he => rw [hx] at hrun; exact hrun
        | ok u => rw [hx] at hrun; exact ih ids2 _ st1 h hrun
  · intro s0 c m b tr hrun
    simp only [handle_backup_client] at hrun
    cases hx : (handle_loop P params params.node_ids (initSt s0)).2 with
    | error he =>
        rw [hx] at hrun
        cases he with
        | failJson m2 => simp at hrun
        | crash m2 => simp at hrun
    | ok u =>
        rw [hx] at hrun
        injection hrun with h1 h2
        injection h1 with hc hm hb
        cases u
        exact ⟨hm.symm, (handle_loop P params params.node_ids (initSt s0)).1,
          by rw [← hx], hc, hb, h2⟩

/-- Claim C8, witness: the short-circuit part applied to a concrete run
whose first target's read fails; the second target is never reached and
the halt is surfaced untouched. -/
theorem C8_witness :
    handle_loop provReadFail paramsPresent (["A"] ++ ["B"]) (initSt ()) =
      ({ initSt () with
           prov := ()
           calls := (initSt ()).calls ++ [Call.read "A"] },
       Except.error (Halt.failJson
         ("Problem finding backup info for host: " ++ "boom"))) :=
  (C8_report_only_on_full_success provReadFail paramsPresent).1 ["A"] ["B"]
    (initSt ()) _ _ (by rfl)

/-- Claim C9: in the `present`-and-no-match branch, when the post-add
re-read returns no client of the desired type, the serialization step
dereferences `None` and the run crashes with an `AttributeError` — an
unguarded crash, not a module-level failure report. -/
theorem C9_post_add_none_dereference {σ : Type} (P : Provider σ)
    (params : ModuleParams) (sid : String) (st : RunSt σ) (s2 s3 s4 : σ)
    (details1 details2 : BackupDetails) (bcAdd : BackupClientObj)
    (sp schp ct : String)
    (hstate : params.state = "present")
    (hsp : params.storage_policy = some sp)
    (hschp : params.schedule_policy = some schp)
    (hct : params.client_type = some ct)
    (hread1 : P.ex_get_backup_details_for_target st.prov sid = (s2, Except.ok details1))
    (hfind1 : get_backup_client details1 params.client_type = none)
    (hadd : P.ex_add_client_to_target s2 sid ct sp schp params.notify_trigger
      params.notify_email = (s3, Except.ok bcAdd))
    (hread2 : P.ex_get_backup_details_for_target s3 sid = (s4, Except.ok details2))
    (hfind2 : get_backup_client details2 params.client_type = none) :
    (handle_one P params sid st).2 =
      Except.error (Halt.crash "AttributeError: NoneType object has no attribute id") := by
  rw [hct] at hfind1 hfind2
  simp [handle_one, get_backup_details_for_host, hread1, hstate, hfind1,
    add_client_to_server, hsp, hschp, hct, hadd, hread2, hfind2,
    _backup_client_obj_to_dict]

/-- Claim C9, witness: the statement applied to the concrete provider on
which the re-read after a successful add still reports no clients. -/
theorem C9_witness :
    (handle_one provEmpty paramsPresent "A" (initSt ())).2 =
      Except.error (Halt.crash "AttributeError: NoneType object has no attribute id") :=
  C9_post_add_none_dereference provEmpty paramsPresent "A" (initSt ()) () () ()
    detailsEmpty detailsEmpty mysqlClient
    "30 Day Storage Policy" "12AM - 6AM" "MySQL"
    rfl rfl rfl rfl rfl rfl rfl rfl rfl

/-- Claim C10: with an empty target id list the run makes no provider
calls and exits successfully with `changed = false`, message `Success`,
and an empty result map, whatever the state and spec fields are — the
non-emptiness of `node_ids` is not enforced. -/
theorem C10_empty_target_list {σ : Type} (P : Provider σ) (s0 : σ)
    (state notify_email notify_trigger : String)
    (client_type storage_policy schedule_policy : Option String) :
    handle_backup_client P
      { state := state
        node_ids := []
        client_type := client_type
        storage_policy := storage_policy
        schedule_policy := schedule_policy
        notify_email := notify_email
        notify_trigger := notify_trigger } s0 =
      (RunOutcome.exited false "Success" [], []) := rfl

end DimensionDataBackupClient
